import Mathlib

/-!
Shallow embedding of the PrepWise mock-interview application
(voice-agent call state machine, auth/session server actions,
feedback pipeline and interview repository queries), together with
theorems settling the specification claims about it.

External collaborators (Firebase auth/Firestore, the Vapi voice SDK and
the hosted model behind `generateObject`) are modelled as environment
parameters: each fallible external call is a function returning `Option`
or `Except`, chosen by the environment, and the document store is an
explicit association list threaded through each action.
-/

/-! ## Call state machine (Agent component) -/

/-- Call status enum of the Agent component:
`INACTIVE`, `CONNECTING`, `ACTIVE`, `FINISHED`. -/
inductive CallStatus
  | INACTIVE
  | CONNECTING
  | ACTIVE
  | FINISHED
deriving DecidableEq, Repr

/-- Message roles, mirroring `role: 'user' | 'system' | 'assistant'`. -/
inductive Role
  | user
  | system
  | assistant
deriving DecidableEq, Repr

/-- A stored transcript entry, mirroring `SavedMessage { role, content }`. -/
structure SavedMessage where
  role : Role
  content : String
deriving DecidableEq, Repr

/-- An inbound voice-channel message payload, mirroring the fields the
`onMessage` handler reads: `message.type`, `message.transcriptType`,
`message.role`, `message.transcript`. -/
structure Message where
  type : String
  transcriptType : String
  role : Role
  transcript : String
deriving DecidableEq, Repr

/-- Props of the Agent component: `{ userName, userId, type, interviewId,
questions }` (the optional props are modelled as plain values, matching the
non-null assertions `interviewId!` / `userId!` at their use sites). -/
structure AgentProps where
  userName : String
  userId : String
  type : String
  interviewId : String
  questions : List String
deriving DecidableEq, Repr

/-- Parameters passed to `vapi.start`: either the workflow id with
`{username, userid}` (generate mode) or the interviewer config with the
formatted question list (interview mode). -/
inductive StartParams
  | workflow (username : String) (userid : String)
  | interview (questions : String)
deriving DecidableEq, Repr

/-- One invocation of `createFeedback` from `handleGenerateFeedback`,
recording the arguments `{ interviewId, userId, transcript }`. -/
structure FeedbackCall where
  transcript : List SavedMessage
  interviewId : String
  userId : String
deriving DecidableEq, Repr

/-- State of one Agent component lifecycle: the three React state variables
(`callStatus`, `messages`, `isSpeaking`) plus the externally observable
actions the component has performed (feedback invocations, router pushes,
`vapi.stop` and `vapi.start` requests). -/
structure AgentState where
  callStatus : CallStatus
  messages : List SavedMessage
  isSpeaking : Bool
  feedbackCalls : List FeedbackCall
  routerPushes : List String
  stopRequests : Nat
  startRequests : List StartParams
deriving DecidableEq, Repr

/-- Events driving the Agent: the Vapi events the component subscribes to
(`call-start`, `call-end`, `message`, `speech-start`, `speech-end`, `error`)
plus the two user actions (`handleCall` and `handleDisconnect` clicks). -/
inductive AgentEvent
  | callStart
  | callEnd
  | message (m : Message)
  | speechStart
  | speechEnd
  | errorEvent
  | userStop
  | userCall
deriving DecidableEq, Repr

/-- Initial Agent state: `INACTIVE`, empty transcript, not speaking,
nothing performed yet. -/
def initialAgentState : AgentState :=
  { callStatus := CallStatus.INACTIVE
    messages := []
    isSpeaking := false
    feedbackCalls := []
    routerPushes := []
    stopRequests := 0
    startRequests := [] }

/-- The question-list rendering of `handleCall`:
`questions.map(q => "- " + q).join("\n")`, empty string when there are no
questions. -/
def formatQuestions (qs : List String) : String :=
  String.intercalate "\n" (qs.map (fun q => "- " ++ q))

/-- The immediate state updates of each event handler (the `setState`
calls and `vapi` requests), before any React effect runs:
`onCallStart`, `onCallEnd`, `onMessage` (appending only final transcripts),
`onSpeechStart`, `onSpeechEnd`, `onError` (log only), `handleDisconnect`
(set `FINISHED`, request `vapi.stop`), `handleCall` (set `CONNECTING`,
request `vapi.start` with mode-dependent parameters). -/
def rawStep (p : AgentProps) (s : AgentState) : AgentEvent → AgentState
  | AgentEvent.callStart => { s with callStatus := CallStatus.ACTIVE }
  | AgentEvent.callEnd => { s with callStatus := CallStatus.FINISHED }
  | AgentEvent.message m =>
      if m.type = "transcript" ∧ m.transcriptType = "final" then
        { s with messages := s.messages ++ [⟨m.role, m.transcript⟩] }
      else s
  | AgentEvent.speechStart => { s with isSpeaking := true }
  | AgentEvent.speechEnd => { s with isSpeaking := false }
  | AgentEvent.errorEvent => s
  | AgentEvent.userStop =>
      { s with callStatus := CallStatus.FINISHED
               stopRequests := s.stopRequests + 1 }
  | AgentEvent.userCall =>
      { s with callStatus := CallStatus.CONNECTING
               startRequests := s.startRequests ++
                 [if p.type = "generate" then
                    StartParams.workflow p.userName p.userId
                  else
                    StartParams.interview (formatQuestions p.questions)] }

/-- The feedback `useEffect` body: when `callStatus` is `FINISHED`, either
push `/` (generate mode) or run `handleGenerateFeedback messages`, which
invokes `createFeedback` with `{interviewId, userId, transcript}` and then
pushes the feedback page on `success && id`, `/` otherwise. The external
`createFeedback` outcome is the parameter `fb` (`some feedbackId` models
`{success: true, feedbackId}`, `none` models failure). -/
def feedbackEffect (p : AgentProps) (fb : List SavedMessage → Option String)
    (s : AgentState) : AgentState :=
  if s.callStatus = CallStatus.FINISHED then
    if p.type = "generate" then
      { s with routerPushes := s.routerPushes ++ ["/"] }
    else
      { s with
        feedbackCalls := s.feedbackCalls ++
          [⟨s.messages, p.interviewId, p.userId⟩]
        routerPushes := s.routerPushes ++
          [match fb s.messages with
           | some _ => "/interview/" ++ p.interviewId ++ "/feedback"
           | none => "/"] }
  else s

/-- One event delivery followed by React effect processing: the handler
updates run, and the feedback effect re-runs exactly when one of its
dependencies changed (`messages` or `callStatus`; the `type` and `userId`
props are constant for one component lifecycle). -/
def applyEvent (p : AgentProps) (fb : List SavedMessage → Option String)
    (s : AgentState) (e : AgentEvent) : AgentState :=
  if (rawStep p s e).messages = s.messages ∧
      (rawStep p s e).callStatus = s.callStatus then
    rawStep p s e
  else feedbackEffect p fb (rawStep p s e)

/-- A whole component lifecycle: the effect runs once on mount (a no-op
while `INACTIVE`), then each delivered event is processed in order. -/
def runAgent (p : AgentProps) (fb : List SavedMessage → Option String)
    (events : List AgentEvent) : AgentState :=
  events.foldl (applyEvent p fb) (feedbackEffect p fb initialAgentState)

/-- The transcript entry contributed by an event: final transcripts map to
`{role, content}`, everything else to nothing. -/
def finalTranscriptOf : AgentEvent → Option SavedMessage
  | AgentEvent.message m =>
      if m.type = "transcript" ∧ m.transcriptType = "final" then
        some ⟨m.role, m.transcript⟩
      else none
  | _ => none

/-! ### Basic lemmas about the Agent step function -/

theorem feedbackEffect_messages (p : AgentProps)
    (fb : List SavedMessage → Option String) (s : AgentState) :
    (feedbackEffect p fb s).messages = s.messages := by
  unfold feedbackEffect
  split
  · split <;> rfl
  · rfl

theorem feedbackEffect_callStatus (p : AgentProps)
    (fb : List SavedMessage → Option String) (s : AgentState) :
    (feedbackEffect p fb s).callStatus = s.callStatus := by
  unfold feedbackEffect
  split
  · split <;> rfl
  · rfl

theorem feedbackEffect_stopRequests (p : AgentProps)
    (fb : List SavedMessage → Option String) (s : AgentState) :
    (feedbackEffect p fb s).stopRequests = s.stopRequests := by
  unfold feedbackEffect
  split
  · split <;> rfl
  · rfl

theorem rawStep_messages (p : AgentProps) (s : AgentState) (e : AgentEvent) :
    (rawStep p s e).messages = s.messages ++ (finalTranscriptOf e).toList := by
  cases e <;> simp only [rawStep, finalTranscriptOf] <;>
    first
      | simp
      | (split <;> simp)

theorem applyEvent_messages (p : AgentProps)
    (fb : List SavedMessage → Option String) (s : AgentState) (e : AgentEvent) :
    (applyEvent p fb s e).messages = s.messages ++ (finalTranscriptOf e).toList := by
  unfold applyEvent
  split
  · exact rawStep_messages p s e
  · rw [feedbackEffect_messages, rawStep_messages]

theorem foldl_applyEvent_messages (p : AgentProps)
    (fb : List SavedMessage → Option String) (evs : List AgentEvent)
    (s : AgentState) :
    (evs.foldl (applyEvent p fb) s).messages =
      s.messages ++ evs.filterMap finalTranscriptOf := by
  induction evs generalizing s with
  | nil => simp
  | cons e evs ih =>
      rw [List.foldl_cons, ih, applyEvent_messages, List.filterMap_cons]
      cases h : finalTranscriptOf e <;> simp

/-- C2: For every sequence of inbound events, exactly those whose kind is
`transcript` with sub-kind `final` are appended to the transcript as
`{role, content}` entries, in receipt order; every other event leaves the
transcript unchanged. Formally the final transcript is the in-order
`filterMap` of the events through `finalTranscriptOf`. -/
theorem transcript_eq_filterMap_final (p : AgentProps)
    (fb : List SavedMessage → Option String) (events : List AgentEvent) :
    (runAgent p fb events).messages = events.filterMap finalTranscriptOf := by
  unfold runAgent
  rw [foldl_applyEvent_messages, feedbackEffect_messages]
  rfl

/-! ### Preservation lemmas for the remaining Agent fields -/

theorem rawStep_feedbackCalls (p : AgentProps) (s : AgentState) (e : AgentEvent) :
    (rawStep p s e).feedbackCalls = s.feedbackCalls := by
  cases e <;> simp only [rawStep] <;> first | rfl | (split <;> rfl)

theorem rawStep_routerPushes (p : AgentProps) (s : AgentState) (e : AgentEvent) :
    (rawStep p s e).routerPushes = s.routerPushes := by
  cases e <;> simp only [rawStep] <;> first | rfl | (split <;> rfl)

theorem feedbackEffect_of_not_finished (p : AgentProps)
    (fb : List SavedMessage → Option String) (s : AgentState)
    (hf : ¬ s.callStatus = CallStatus.FINISHED) :
    feedbackEffect p fb s = s := by
  unfold feedbackEffect
  rw [if_neg hf]

theorem feedbackEffect_of_generate (p : AgentProps)
    (fb : List SavedMessage → Option String) (s : AgentState)
    (hp : p.type = "generate") (hf : s.callStatus = CallStatus.FINISHED) :
    feedbackEffect p fb s =
      { s with routerPushes := s.routerPushes ++ ["/"] } := by
  unfold feedbackEffect
  rw [if_pos hf, if_pos hp]

theorem feedbackEffect_of_interview (p : AgentProps)
    (fb : List SavedMessage → Option String) (s : AgentState)
    (hp : ¬ p.type = "generate") (hf : s.callStatus = CallStatus.FINISHED) :
    feedbackEffect p fb s =
      { s with
        feedbackCalls := s.feedbackCalls ++
          [⟨s.messages, p.interviewId, p.userId⟩]
        routerPushes := s.routerPushes ++
          [match fb s.messages with
           | some _ => "/interview/" ++ p.interviewId ++ "/feedback"
           | none => "/"] } := by
  unfold feedbackEffect
  rw [if_pos hf, if_neg hp]

/-- Invariant maintained by a generate-mode Agent: no feedback invocation is
ever performed, every router push is the landing view `/`, and once the call
is `FINISHED` at least one push has happened. -/
def generateModeInv (s : AgentState) : Prop :=
  s.feedbackCalls = [] ∧ (∀ r ∈ s.routerPushes, r = "/") ∧
    (s.callStatus = CallStatus.FINISHED → s.routerPushes ≠ [])

theorem generateModeInv_applyEvent (p : AgentProps)
    (fb : List SavedMessage → Option String) (hp : p.type = "generate")
    (s : AgentState) (e : AgentEvent) (h : generateModeInv s) :
    generateModeInv (applyEvent p fb s e) := by
  obtain ⟨h1, h2, h3⟩ := h
  unfold applyEvent
  split
  · rename_i hdep
    refine ⟨?_, ?_, ?_⟩
    · rw [rawStep_feedbackCalls]; exact h1
    · rw [rawStep_routerPushes]; exact h2
    · intro hf
      rw [rawStep_routerPushes]
      exact h3 (hdep.2 ▸ hf)
  · by_cases hf : (rawStep p s e).callStatus = CallStatus.FINISHED
    · rw [feedbackEffect_of_generate p fb _ hp hf]
      refine ⟨?_, ?_, ?_⟩
      · show (rawStep p s e).feedbackCalls = []
        rw [rawStep_feedbackCalls]; exact h1
      · intro r hr
        have hr' : r ∈ (rawStep p s e).routerPushes ++ ["/"] := hr
        rcases List.mem_append.mp hr' with hr'' | hr''
        · exact h2 r (rawStep_routerPushes p s e ▸ hr'')
        · simpa using hr''
      · intro _
        show (rawStep p s e).routerPushes ++ ["/"] ≠ []
        simp
    · rw [feedbackEffect_of_not_finished p fb _ hf]
      refine ⟨?_, ?_, ?_⟩
      · rw [rawStep_feedbackCalls]; exact h1
      · rw [rawStep_routerPushes]; exact h2
      · intro hcon; exact absurd hcon hf

/-- C3: For every call whose type is "generate", reaching `FINISHED` never
invokes the Feedback Pipeline (so no Feedback record is ever created by
this lifecycle), regardless of transcript content; instead every router
push is to the landing view `/`, and on reaching `FINISHED` such a push
has happened. -/
theorem generate_mode_no_feedback (p : AgentProps)
    (fb : List SavedMessage → Option String) (events : List AgentEvent)
    (hp : p.type = "generate") :
    (runAgent p fb events).feedbackCalls = [] ∧
    (∀ r ∈ (runAgent p fb events).routerPushes, r = "/") ∧
    ((runAgent p fb events).callStatus = CallStatus.FINISHED →
      (runAgent p fb events).routerPushes ≠ []) := by
  have hfold : ∀ (evs : List AgentEvent) (s : AgentState), generateModeInv s →
      generateModeInv (evs.foldl (applyEvent p fb) s) := by
    intro evs
    induction evs with
    | nil => intro s h; exact h
    | cons e evs ih =>
        intro s h
        exact ih _ (generateModeInv_applyEvent p fb hp s e h)
  have hinit : generateModeInv (feedbackEffect p fb initialAgentState) := by
    unfold feedbackEffect initialAgentState generateModeInv
    simp
  exact hfold events _ hinit

/-- Generate-mode props used as concrete inputs. -/
def genProps : AgentProps :=
  { userName := "Alice", userId := "u1", type := "generate",
    interviewId := "i1", questions := [] }

/-- Interview-mode props used as concrete inputs. -/
def interviewProps : AgentProps :=
  { userName := "Alice", userId := "u1", type := "interview",
    interviewId := "i1", questions := ["Q1"] }

/-- A `createFeedback` outcome that always succeeds with id `f1`. -/
def fbConst : List SavedMessage → Option String := fun _ => some "f1"

/-- A final-transcript message event. -/
def finalMsg (r : Role) (c : String) : AgentEvent :=
  AgentEvent.message { type := "transcript", transcriptType := "final",
                       role := r, transcript := c }

/-- Witness for C3 at a concrete generate-mode lifecycle. -/
theorem generate_mode_no_feedback_witness :
    (runAgent genProps fbConst
      [finalMsg Role.assistant "Hello", AgentEvent.callEnd]).feedbackCalls = [] :=
  (generate_mode_no_feedback genProps fbConst
    [finalMsg Role.assistant "Hello", AgentEvent.callEnd] rfl).1

/-- Trace in which a final transcript fragment is still delivered after the
channel reports `call-end` (the message listener is only removed on
component teardown, so this is a possible event order). -/
def lateTranscriptTrace : List AgentEvent :=
  [finalMsg Role.assistant "Tell me about yourself",
   AgentEvent.callEnd,
   finalMsg Role.user "I build backend systems"]

/-- C1 counterexample: in a non-generate call that reaches `FINISHED` with a
non-empty transcript, `createFeedback` is invoked twice, not exactly once:
the feedback effect depends on `messages`, so the final transcript event
delivered after `call-end` re-runs it while the status is still
`FINISHED`. -/
theorem feedback_invoked_twice_after_late_transcript :
    interviewProps.type ≠ "generate" ∧
    (runAgent interviewProps fbConst lateTranscriptTrace).callStatus =
      CallStatus.FINISHED ∧
    (runAgent interviewProps fbConst lateTranscriptTrace).messages ≠ [] ∧
    (runAgent interviewProps fbConst lateTranscriptTrace).feedbackCalls.length = 2 := by
  decide

/-- C1 amended: at the transition into `FINISHED` (via `call-end` or a stop
click) in a non-generate call with a non-empty transcript, `createFeedback`
is invoked exactly once, with the accumulated transcript, the interviewId
and the userId; further invocations can only come from dependency changes
after `FINISHED` (as in the counterexample above). -/
theorem feedback_invoked_once_per_finish_transition (p : AgentProps)
    (fb : List SavedMessage → Option String) (pre : List AgentEvent)
    (e : AgentEvent) (hp : ¬ p.type = "generate")
    (he : e = AgentEvent.callEnd ∨ e = AgentEvent.userStop)
    (hs : (runAgent p fb pre).callStatus ≠ CallStatus.FINISHED)
    (hm : (runAgent p fb pre).messages ≠ []) :
    (runAgent p fb (pre ++ [e])).feedbackCalls =
      (runAgent p fb pre).feedbackCalls ++
        [⟨(runAgent p fb pre).messages, p.interviewId, p.userId⟩] := by
  have hrun : runAgent p fb (pre ++ [e]) =
      applyEvent p fb (runAgent p fb pre) e := by
    unfold runAgent
    rw [List.foldl_append]
    rfl
  rcases he with rfl | rfl
  · rw [hrun]
    unfold applyEvent
    rw [if_neg (fun hdep => hs (hdep.2.symm.trans rfl)),
      feedbackEffect_of_interview p fb _ hp rfl]
    rfl
  · rw [hrun]
    unfold applyEvent
    rw [if_neg (fun hdep => hs (hdep.2.symm.trans rfl)),
      feedbackEffect_of_interview p fb _ hp rfl]
    rfl

/-- Witness for the amended C1 at a concrete interview-mode lifecycle. -/
theorem feedback_invoked_once_per_finish_transition_witness :
    (runAgent interviewProps fbConst
        ([finalMsg Role.assistant "Hi"] ++ [AgentEvent.callEnd])).feedbackCalls =
      (runAgent interviewProps fbConst [finalMsg Role.assistant "Hi"]).feedbackCalls ++
        [⟨(runAgent interviewProps fbConst [finalMsg Role.assistant "Hi"]).messages,
          "i1", "u1"⟩] :=
  feedback_invoked_once_per_finish_transition interviewProps fbConst
    [finalMsg Role.assistant "Hi"] AgentEvent.callEnd
    (by decide) (Or.inl rfl) (by decide) (by decide)

/-- C9: calling `stop()` (`handleDisconnect`) from any non-terminal state
forces the very next state to `FINISHED` — already before the feedback
effect runs, so `ACTIVE` is never entered on that path — and requests
channel teardown (`vapi.stop`). -/
theorem stop_transitions_to_finished (p : AgentProps)
    (fb : List SavedMessage → Option String) (pre : List AgentEvent)
    (hs : (runAgent p fb pre).callStatus ≠ CallStatus.FINISHED) :
    (rawStep p (runAgent p fb pre) AgentEvent.userStop).callStatus =
      CallStatus.FINISHED ∧
    (runAgent p fb (pre ++ [AgentEvent.userStop])).callStatus =
      CallStatus.FINISHED ∧
    (runAgent p fb (pre ++ [AgentEvent.userStop])).stopRequests =
      (runAgent p fb pre).stopRequests + 1 ∧
    (runAgent p fb (pre ++ [AgentEvent.userStop])).callStatus ≠
      CallStatus.ACTIVE := by
  have hrun : runAgent p fb (pre ++ [AgentEvent.userStop]) =
      applyEvent p fb (runAgent p fb pre) AgentEvent.userStop := by
    unfold runAgent
    rw [List.foldl_append]
    rfl
  have happ : applyEvent p fb (runAgent p fb pre) AgentEvent.userStop =
      feedbackEffect p fb (rawStep p (runAgent p fb pre) AgentEvent.userStop) := by
    unfold applyEvent
    exact if_neg (fun hdep => hs (hdep.2.symm.trans rfl))
  have hcs : (runAgent p fb (pre ++ [AgentEvent.userStop])).callStatus =
      CallStatus.FINISHED := by
    rw [hrun, happ, feedbackEffect_callStatus]
    rfl
  refine ⟨rfl, hcs, ?_, ?_⟩
  · rw [hrun, happ, feedbackEffect_stopRequests]
    rfl
  · rw [hcs]
    intro hcontra
    exact CallStatus.noConfusion hcontra

/-- Witness for C9: stopping while `CONNECTING`. -/
theorem stop_transitions_to_finished_witness :
    (runAgent interviewProps fbConst
      ([AgentEvent.userCall] ++ [AgentEvent.userStop])).callStatus =
      CallStatus.FINISHED :=
  (stop_transitions_to_finished interviewProps fbConst [AgentEvent.userCall]
    (by decide)).2.1

/-! ## Auth and session server actions (auth.action.ts, first module) -/

/-- Profile data written to the `users` collection on sign-up:
`{name, email}`. -/
structure UserData where
  name : String
  email : String
deriving DecidableEq, Repr

/-- Client-facing result of `signUp`: `{success, message}`. -/
structure ActionResult where
  success : Bool
  message : String
deriving DecidableEq, Repr

/-- Cookie expiry constant: `ONE_WEEK = 60 * 60 * 24 * 7` seconds. -/
def ONE_WEEK : Nat := 60 * 60 * 24 * 7

/-- `db.collection("users").doc(uid).get()`: the `users` collection is an
association list keyed by the provider-issued uid. -/
def usersLookup (col : List (String × UserData)) (uid : String) :
    Option UserData :=
  (col.find? (fun kv => kv.fst == uid)).map (fun kv => kv.snd)

/-- Parameters of `signUp`: `{uid, name, email, password}` (the password is
never read by the server action). -/
structure SignUpParams where
  uid : String
  name : String
  email : String
  password : String
deriving DecidableEq, Repr

/-- `signUp`: looks up `users/{uid}`; if it exists, rejects with the
duplicate-user message and performs no write; otherwise writes `{name,
email}` under `uid` and reports success. A document-store exception is
modelled by `fsError = some code`, which lands in the catch branch: code
`auth/email-already-exists` yields the duplicate-email message, anything
else the generic failure message, and in either case no write happens.
Returns the result together with the resulting `users` collection. -/
def signUp (fsError : Option String) (col : List (String × UserData))
    (p : SignUpParams) : ActionResult × List (String × UserData) :=
  match fsError with
  | some code =>
      if code = "auth/email-already-exists" then
        ({ success := false, message := "This email is already in use." }, col)
      else
        ({ success := false, message := "Failed to create an account" }, col)
  | none =>
      match usersLookup col p.uid with
      | some _ =>
          ({ success := false,
             message := "User already exists. Please sign in instead." }, col)
      | none =>
          ({ success := true,
             message := "Account created successfully. Please sign in." },
           col ++ [(p.uid, { name := p.name, email := p.email })])

/-- Environment of `signIn`: the identity provider's user lookup
(`auth.getUserByEmail`, which may throw, report no record, or return one
identified by its uid) and the session-cookie mint
(`auth.createSessionCookie`, `none` modelling a thrown
`SessionCreationError`). -/
structure SignInEnv where
  getUserByEmail : String → Except String (Option String)
  createSessionCookie : String → Option String

/-- `setSessionCookie`: exchanges the id token for the session credential
stored in the `session` cookie; `none` when the mint throws. -/
def setSessionCookie (env : SignInEnv) (idToken : String) : Option String :=
  env.createSessionCookie idToken

/-- `signIn`: looks the user up by email, rejects with the distinguishable
message when no record comes back, otherwise sets the session cookie.
Any thrown exception is caught and converted to the generic failure
message. The first component is the function's return value — `none` models
the `undefined` return of the success path, which falls off the end of the
function after `setSessionCookie` — and the second is the session cookie
that was set, if any. -/
def signIn (env : SignInEnv) (email idToken : String) :
    Option ActionResult × Option String :=
  match env.getUserByEmail email with
  | Except.error _ =>
      (some { success := false,
              message := "Failed to log into an account." }, none)
  | Except.ok none =>
      (some { success := false,
              message := "User does not exist. Create an account instead." },
       none)
  | Except.ok (some _) =>
      match setSessionCookie env idToken with
      | none =>
          (some { success := false,
                  message := "Failed to log into an account." }, none)
      | some c => (none, some c)

/-- Environment of `getCurrentUser`: the transport cookie store (`session`
cookie value, if present) and the identity provider's credential
verification (`auth.verifySessionCookie`, returning the subject uid;
`none` models a thrown verification error, caught by the action). -/
structure SessionEnv where
  sessionCookie : Option String
  verifySessionCookie : String → Option String

/-- The user record returned by `getCurrentUser`: the stored profile data
with the document id included. -/
structure User where
  id : String
  name : String
  email : String
deriving DecidableEq, Repr

/-- `getCurrentUser`: returns `null` when the session cookie is absent,
when the credential fails verification, or when `users/{uid}` does not
exist; otherwise the stored profile with `id := userRecord.id` (the
document id, i.e. the verified subject uid). Total by construction, so it
never throws. -/
def getCurrentUser (env : SessionEnv) (col : List (String × UserData)) :
    Option User :=
  match env.sessionCookie with
  | none => none
  | some c =>
      match env.verifySessionCookie c with
      | none => none
      | some uid =>
          match usersLookup col uid with
          | none => none
          | some data =>
              some { id := uid, name := data.name, email := data.email }

/-- `isAuthenticated`: `!!user` over `getCurrentUser`. -/
def isAuthenticated (env : SessionEnv) (col : List (String × UserData)) :
    Bool :=
  (getCurrentUser env col).isSome

/-! ## Feedback pipeline (general.action.ts) -/

/-- The structured object the hosted model must return for the fixed
rubric: total score, per-category scores, strengths, areas for improvement
and a final assessment. -/
structure FeedbackObject where
  totalScore : Int
  categoryScores : List (String × Int)
  strengths : List String
  areasForImprovement : List String
  finalAssessment : String
deriving DecidableEq, Repr

/-- A persisted document of the `feedback` collection. -/
structure FeedbackDoc where
  id : String
  interviewId : String
  userId : String
  totalScore : Int
  categoryScores : List (String × Int)
  strengths : List String
  areasForImprovement : List String
  finalAssessment : String
  createdAt : String
deriving DecidableEq, Repr

/-- Result shape of `createFeedback`: `{success, feedbackId?}`. -/
structure CreateFeedbackResult where
  success : Bool
  feedbackId : Option String
deriving DecidableEq, Repr

/-- Environment of `createFeedback`: the hosted structured-generation call
(as a function of the formatted transcript, the varying part of the fixed
prompt; `none` models a schema-validation or network failure, i.e. a
rejected `generateObject` promise), the document id the store assigns on a
successful `add` (`none` models a persistence failure), and the clock
behind `new Date().toISOString()`. -/
structure FeedbackEnv where
  generateFeedbackObject : String → Option FeedbackObject
  addDocId : Option String
  now : String

/-- String rendering of a transcript role. -/
def roleString : Role → String
  | Role.user => "user"
  | Role.system => "system"
  | Role.assistant => "assistant"

/-- The transcript rendering of `createFeedback`:
one `"- role: content\n"` piece per sentence, concatenated. -/
def formatTranscript (t : List SavedMessage) : String :=
  String.join (t.map (fun sentence =>
    "- " ++ roleString sentence.role ++ ": " ++ sentence.content ++ "\n"))

/-- `createFeedback`: formats the transcript, invokes the hosted model, and
persists one `feedback` document with the generated fields, the ids and the
timestamp; returns `{success: true, feedbackId}` on success and
`{success: false}` (no feedbackId) on any failure, leaving the store
unchanged in that case. Returns the result together with the resulting
`feedback` collection. -/
def createFeedback (env : FeedbackEnv) (store : List FeedbackDoc)
    (interviewId userId : String) (transcript : List SavedMessage) :
    CreateFeedbackResult × List FeedbackDoc :=
  match env.generateFeedbackObject (formatTranscript transcript) with
  | none => ({ success := false, feedbackId := none }, store)
  | some obj =>
      match env.addDocId with
      | none => ({ success := false, feedbackId := none }, store)
      | some docId =>
          ({ success := true, feedbackId := some docId },
           store ++ [{ id := docId, interviewId := interviewId,
                       userId := userId, totalScore := obj.totalScore,
                       categoryScores := obj.categoryScores,
                       strengths := obj.strengths,
                       areasForImprovement := obj.areasForImprovement,
                       finalAssessment := obj.finalAssessment,
                       createdAt := env.now }])

/-! ## Interview repository (general.action.ts queries) -/

/-- A document of the `interviews` collection, restricted to the fields the
queries read (`userId`, `finalized`, `createdAt`) plus the identifying and
seeding fields; `createdAt` is modelled as a totally ordered timestamp. -/
structure InterviewDoc where
  id : String
  userId : String
  role : String
  questions : List String
  finalized : Bool
  createdAt : Nat
deriving DecidableEq, Repr

/-- Insert a document into a list already sorted by `createdAt` descending,
keeping it sorted (later documents with equal timestamps stay behind
earlier ones). -/
def insertByCreatedAtDesc (d : InterviewDoc) :
    List InterviewDoc → List InterviewDoc
  | [] => [d]
  | x :: xs =>
      if x.createdAt < d.createdAt then d :: x :: xs
      else x :: insertByCreatedAtDesc d xs

/-- Stable sort by `createdAt` descending — the `orderBy("createdAt",
"desc")` clause of the queries. -/
def sortByCreatedAtDesc : List InterviewDoc → List InterviewDoc
  | [] => []
  | x :: xs => insertByCreatedAtDesc x (sortByCreatedAtDesc xs)

/-- `getLatestInterviews`: the documents satisfying both `where` clauses
(`finalized == true` and `userId != callerUserId`), ordered by `createdAt`
descending, capped at `limit` (default 20). -/
def getLatestInterviews (store : List InterviewDoc) (userId : String)
    (limit : Nat := 20) : List InterviewDoc :=
  (sortByCreatedAtDesc (store.filter
    (fun d => d.finalized && d.userId != userId))).take limit

/-! ## Claims about the auth and session actions -/

/-- C4: `getCurrentUser` returns null — and, being total, never throws — when
the session cookie is absent, when the session credential fails
verification, or when the profile record for the resolved subject does not
exist; when all three succeed it returns the stored profile with the
document id included. -/
theorem getCurrentUser_cases (env : SessionEnv)
    (col : List (String × UserData)) :
    (env.sessionCookie = none → getCurrentUser env col = none) ∧
    (∀ c, env.sessionCookie = some c → env.verifySessionCookie c = none →
      getCurrentUser env col = none) ∧
    (∀ c uid, env.sessionCookie = some c →
      env.verifySessionCookie c = some uid → usersLookup col uid = none →
      getCurrentUser env col = none) ∧
    (∀ c uid data, env.sessionCookie = some c →
      env.verifySessionCookie c = some uid →
      usersLookup col uid = some data →
      getCurrentUser env col =
        some { id := uid, name := data.name, email := data.email }) := by
  refine ⟨?_, ?_, ?_, ?_⟩
  · intro h
    simp [getCurrentUser, h]
  · intro c h1 h2
    simp [getCurrentUser, h1, h2]
  · intro c uid h1 h2 h3
    simp [getCurrentUser, h1, h2, h3]
  · intro c uid data h1 h2 h3
    simp [getCurrentUser, h1, h2, h3]

/-- A session environment with no cookie at all. -/
def sessionEnvNone : SessionEnv :=
  { sessionCookie := none, verifySessionCookie := fun _ => none }

/-- Witness for C4: no session cookie yields null. -/
theorem getCurrentUser_cases_witness :
    getCurrentUser sessionEnvNone [] = none :=
  (getCurrentUser_cases sessionEnvNone []).1 rfl

/-- C10: `isAuthenticated` never throws (it is total) and is true exactly
when `getCurrentUser` returns a user; in particular it is false when the
cookie is absent, the credential fails verification, or the subject has no
profile record. -/
theorem isAuthenticated_iff_currentUser (env : SessionEnv)
    (col : List (String × UserData)) :
    (isAuthenticated env col = true ↔ (getCurrentUser env col).isSome = true) ∧
    (getCurrentUser env col = none → isAuthenticated env col = false) ∧
    (env.sessionCookie = none → isAuthenticated env col = false) ∧
    (∀ c, env.sessionCookie = some c → env.verifySessionCookie c = none →
      isAuthenticated env col = false) ∧
    (∀ c uid, env.sessionCookie = some c →
      env.verifySessionCookie c = some uid → usersLookup col uid = none →
      isAuthenticated env col = false) := by
  refine ⟨Iff.rfl, ?_, ?_, ?_, ?_⟩
  · intro h
    simp [isAuthenticated, h]
  · intro h
    simp [isAuthenticated, getCurrentUser, h]
  · intro c h1 h2
    simp [isAuthenticated, getCurrentUser, h1, h2]
  · intro c uid h1 h2 h3
    simp [isAuthenticated, getCurrentUser, h1, h2, h3]

/-- Witness for C10: no session cookie yields false rather than a fault. -/
theorem isAuthenticated_iff_currentUser_witness :
    isAuthenticated sessionEnvNone [] = false :=
  (isAuthenticated_iff_currentUser sessionEnvNone []).2.2.1 rfl

/-- A `users` collection already holding Alice with email `a@b.c`. -/
def dupEmailStore : List (String × UserData) :=
  [("u1", { name := "Alice", email := "a@b.c" })]

/-- A sign-up whose email collides with Alice's but whose uid is fresh. -/
def dupEmailParams : SignUpParams :=
  { uid := "u2", name := "Bob", email := "a@b.c", password := "pw" }

/-- C5 counterexample: a sign-up whose email (but not uid) already exists
in the store succeeds and writes a second profile with the duplicate email
— `signUp` only checks `users/{uid}` existence, never the email. -/
theorem signUp_duplicate_email_writes :
    (dupEmailStore.map (fun kv => kv.snd.email)).contains
      dupEmailParams.email = true ∧
    (∀ kv ∈ dupEmailStore, kv.fst ≠ dupEmailParams.uid) ∧
    (signUp none dupEmailStore dupEmailParams).fst.success = true ∧
    (signUp none dupEmailStore dupEmailParams).snd ≠ dupEmailStore := by
  decide

/-- C5 amended: a sign-up whose uid already exists in the store is rejected
with the distinguishable duplicate-user message and performs no write (and
even under a store exception, no write is performed and success is false);
a duplicate email under a fresh uid is not rejected by `signUp` (see the
counterexample). -/
theorem signUp_duplicate_uid_rejected (fsError : Option String)
    (col : List (String × UserData)) (p : SignUpParams)
    (h : (usersLookup col p.uid).isSome = true) :
    (signUp fsError col p).fst.success = false ∧
    (signUp fsError col p).snd = col ∧
    (fsError = none →
      (signUp fsError col p).fst.message =
        "User already exists. Please sign in instead.") := by
  cases fsError with
  | some code =>
      refine ⟨?_, ?_, fun hn => Option.noConfusion hn⟩
      · by_cases hc : code = "auth/email-already-exists" <;>
          simp [signUp, hc]
      · by_cases hc : code = "auth/email-already-exists" <;>
          simp [signUp, hc]
  | none =>
      cases hl : usersLookup col p.uid with
      | none =>
          rw [hl] at h
          exact absurd h (by simp)
      | some d =>
          refine ⟨?_, ?_, fun _ => ?_⟩ <;> simp [signUp, hl]

/-- Witness for the amended C5: re-signing up Alice's uid is rejected
without a write. -/
theorem signUp_duplicate_uid_rejected_witness :
    (signUp none dupEmailStore
      { uid := "u1", name := "X", email := "x@y.z", password := "pw" }).snd =
      dupEmailStore :=
  (signUp_duplicate_uid_rejected none dupEmailStore
    { uid := "u1", name := "X", email := "x@y.z", password := "pw" }
    (by decide)).2.1

/-- A sign-in environment where the email lookup succeeds and the session
cookie mint succeeds. -/
def signInEnvOk : SignInEnv :=
  { getUserByEmail := fun _ => Except.ok (some "u1")
    createSessionCookie := fun t => some ("cookie-" ++ t) }

/-- A sign-in environment whose email lookup reports no account. -/
def signInEnvUnknown : SignInEnv :=
  { getUserByEmail := fun _ => Except.ok none
    createSessionCookie := fun _ => none }

/-- C6 counterexample: on successful session establishment `signIn` returns
no value at all (the success path falls off the end of the function), not
an object with `success = true`. -/
theorem signIn_success_returns_no_result :
    (signIn signInEnvOk "a@b.c" "tok").snd = some "cookie-tok" ∧
    (signIn signInEnvOk "a@b.c" "tok").fst = none := by
  exact ⟨rfl, rfl⟩

/-- C6 amended: every result object `signIn` actually returns carries
`success = false` together with a message, and it returns no object exactly
on the path that establishes the session; `createFeedback` returns
`{success, feedbackId?}` with `feedbackId` present exactly when `success`
is true. -/
theorem result_shapes :
    (∀ (env : SignInEnv) (email idToken : String) (r : ActionResult),
      (signIn env email idToken).fst = some r → r.success = false) ∧
    (∀ (env : SignInEnv) (email idToken : String),
      (signIn env email idToken).snd.isSome = true →
      (signIn env email idToken).fst = none) ∧
    (∀ (env : FeedbackEnv) (store : List FeedbackDoc)
      (interviewId userId : String) (transcript : List SavedMessage),
      ((createFeedback env store interviewId userId transcript).fst.success
        = true) ↔
      ((createFeedback env store interviewId userId
          transcript).fst.feedbackId.isSome = true)) := by
  refine ⟨?_, ?_, ?_⟩
  · intro env email idToken r h
    cases hg : env.getUserByEmail email with
    | error e =>
        simp [signIn, hg] at h
        rw [← h]
    | ok o =>
        cases o with
        | none =>
            simp [signIn, hg] at h
            rw [← h]
        | some uid =>
            cases hc : setSessionCookie env idToken with
            | none =>
                simp [signIn, hg, hc] at h
                rw [← h]
            | some c =>
                simp [signIn, hg, hc] at h
  · intro env email idToken h
    cases hg : env.getUserByEmail email with
    | error e => simp [signIn, hg] at h
    | ok o =>
        cases o with
        | none => simp [signIn, hg] at h
        | some uid =>
            cases hc : setSessionCookie env idToken with
            | none => simp [signIn, hg, hc] at h
            | some c => simp [signIn, hg, hc]
  · intro env store interviewId userId transcript
    cases hg : env.generateFeedbackObject (formatTranscript transcript) with
    | none => simp [createFeedback, hg]
    | some obj =>
        cases ha : env.addDocId with
        | none => simp [createFeedback, hg, ha]
        | some docId => simp [createFeedback, hg, ha]

/-- Witness for the amended C6 at the unknown-email environment. -/
theorem result_shapes_witness :
    ActionResult.success
      { success := false,
        message := "User does not exist. Create an account instead." } =
      false :=
  result_shapes.1 signInEnvUnknown "a@b.c" "tok" _ rfl

/-- C7: signing in against an email for which the account lookup reports no
record returns `{success: false}` with the distinguishable
"user does not exist" message, which differs from the generic sign-in
failure message. -/
theorem signIn_unknown_email_distinguishable (env : SignInEnv)
    (email idToken : String)
    (h : env.getUserByEmail email = Except.ok none) :
    signIn env email idToken =
      (some { success := false,
              message := "User does not exist. Create an account instead." },
       none) ∧
    "User does not exist. Create an account instead." ≠
      "Failed to log into an account." := by
  refine ⟨?_, by decide⟩
  unfold signIn
  rw [h]

/-- Witness for C7 at a concrete unknown-email environment. -/
theorem signIn_unknown_email_distinguishable_witness :
    signIn signInEnvUnknown "a@b.c" "tok" =
      (some { success := false,
              message := "User does not exist. Create an account instead." },
       none) :=
  (signIn_unknown_email_distinguishable signInEnvUnknown "a@b.c" "tok" rfl).1

/-! ## Claims about the interview repository query -/

theorem mem_insertByCreatedAtDesc (a d : InterviewDoc)
    (l : List InterviewDoc) :
    a ∈ insertByCreatedAtDesc d l ↔ a = d ∨ a ∈ l := by
  induction l with
  | nil => simp [insertByCreatedAtDesc]
  | cons x xs ih =>
      unfold insertByCreatedAtDesc
      split
      · simp [List.mem_cons]
      · simp only [List.mem_cons, ih]
        tauto

theorem pairwise_insertByCreatedAtDesc (d : InterviewDoc)
    (l : List InterviewDoc)
    (h : l.Pairwise (fun a b => b.createdAt ≤ a.createdAt)) :
    (insertByCreatedAtDesc d l).Pairwise
      (fun a b => b.createdAt ≤ a.createdAt) := by
  induction l with
  | nil => simp [insertByCreatedAtDesc]
  | cons x xs ih =>
      rcases List.pairwise_cons.mp h with ⟨hx, hxs⟩
      unfold insertByCreatedAtDesc
      split
      · rename_i hlt
        refine List.pairwise_cons.mpr ⟨?_, h⟩
        intro b hb
        rcases List.mem_cons.mp hb with rfl | hb2
        · exact Nat.le_of_lt hlt
        · exact Nat.le_trans (hx b hb2) (Nat.le_of_lt hlt)
      · rename_i hge
        refine List.pairwise_cons.mpr ⟨?_, ih hxs⟩
        intro b hb
        rcases (mem_insertByCreatedAtDesc b d xs).mp hb with rfl | hb2
        · exact Nat.le_of_not_lt hge
        · exact hx b hb2

theorem mem_sortByCreatedAtDesc (a : InterviewDoc) (l : List InterviewDoc) :
    a ∈ sortByCreatedAtDesc l ↔ a ∈ l := by
  induction l with
  | nil => simp [sortByCreatedAtDesc]
  | cons x xs ih =>
      unfold sortByCreatedAtDesc
      rw [mem_insertByCreatedAtDesc, ih, List.mem_cons]

theorem pairwise_sortByCreatedAtDesc (l : List InterviewDoc) :
    (sortByCreatedAtDesc l).Pairwise
      (fun a b => b.createdAt ≤ a.createdAt) := by
  induction l with
  | nil => simp [sortByCreatedAtDesc]
  | cons x xs ih =>
      unfold sortByCreatedAtDesc
      exact pairwise_insertByCreatedAtDesc x _ ih

/-- Finalized interview not owned by `u1`, oldest. -/
def i1doc : InterviewDoc :=
  { id := "i1", userId := "u2", role := "dev", questions := ["Q1"],
    finalized := true, createdAt := 1 }

/-- Finalized interview not owned by `u1`, middle. -/
def i2doc : InterviewDoc :=
  { id := "i2", userId := "u3", role := "dev", questions := ["Q2"],
    finalized := true, createdAt := 2 }

/-- Finalized interview not owned by `u1`, newest. -/
def i3doc : InterviewDoc :=
  { id := "i3", userId := "u4", role := "dev", questions := ["Q3"],
    finalized := true, createdAt := 3 }

/-- An unfinalized interview. -/
def i4doc : InterviewDoc :=
  { id := "i4", userId := "u5", role := "dev", questions := ["Q4"],
    finalized := false, createdAt := 4 }

/-- The scenario store: 3 finalized interviews not owned by `u1` and 1
unfinalized interview. -/
def scenarioStore : List InterviewDoc := [i1doc, i2doc, i3doc, i4doc]

/-- C8: `getLatestInterviews` returns only interviews with
`finalized = true` whose `userId` differs from the caller's, ordered
newest-first by `createdAt`, capped at the caller-supplied limit (default
20); in particular, with limit 2 over the scenario store it returns exactly
the 2 newest finalized ones, newest first. -/
theorem getLatestInterviews_spec :
    (∀ (store : List InterviewDoc) (uid : String) (lim : Nat)
        (d : InterviewDoc), d ∈ getLatestInterviews store uid lim →
        d.finalized = true ∧ d.userId ≠ uid) ∧
    (∀ (store : List InterviewDoc) (uid : String) (lim : Nat),
      (getLatestInterviews store uid lim).Pairwise
        (fun a b => b.createdAt ≤ a.createdAt)) ∧
    (∀ (store : List InterviewDoc) (uid : String) (lim : Nat),
      (getLatestInterviews store uid lim).length ≤ lim) ∧
    (∀ (store : List InterviewDoc) (uid : String),
      getLatestInterviews store uid = getLatestInterviews store uid 20) ∧
    getLatestInterviews scenarioStore "u1" 2 = [i3doc, i2doc] := by
  refine ⟨?_, ?_, ?_, fun store uid => rfl, by decide⟩
  · intro store uid lim d hd
    have hsort : d ∈ sortByCreatedAtDesc (store.filter
        (fun d => d.finalized && d.userId != uid)) :=
      (List.take_sublist lim _).subset hd
    have hfil := (mem_sortByCreatedAtDesc d _).mp hsort
    have hp := (List.mem_filter.mp hfil).2
    simpa [Bool.and_eq_true, bne_iff_ne] using hp
  · intro store uid lim
    exact List.Pairwise.sublist (List.take_sublist lim _)
      (pairwise_sortByCreatedAtDesc _)
  · intro store uid lim
    unfold getLatestInterviews
    rw [List.length_take]
    exact Nat.min_le_left _ _

/-- Witness for C8: the newest returned document is finalized and not owned
by the caller. -/
theorem getLatestInterviews_spec_witness :
    i3doc.finalized = true ∧ i3doc.userId ≠ "u1" :=
  getLatestInterviews_spec.1 scenarioStore "u1" 2 i3doc (by decide)
